import Mathlib

/-!
Shallow embedding of the FCOS assistant Matrix bot (src/main.py).

The bot's externally visible behaviour is modelled as traces of effects:
AI-generation requests, room sends, and room joins.  External services
(the Gemini AI call and the Matrix send operation) are modelled as
oracles passed in as functions, so that the handlers become pure
functions from an event to the list of attempted effects together with
a flag recording whether the handler returned normally (true) or let an
exception escape (false).
-/

/-- Module constant FEDORA_COREOS_DOCS_URL (src/main.py line 14). -/
def FEDORA_COREOS_DOCS_URL : String :=
  "https://docs.fedoraproject.org/en-US/fedora-coreos/"

/-- Tool declarations handed to the AI service (src/main.py line 47). -/
inductive Tool where
  | google_search
  | url_context
  deriving DecidableEq

/-- Matrix room data used by the handlers (room_id and display_name). -/
structure MatrixRoom where
  room_id : String
  display_name : String
  deriving DecidableEq

/-- Incoming text-message event: sender, body, server timestamp (ms). -/
structure RoomMessageText where
  sender : String
  body : String
  server_timestamp : Nat
  deriving DecidableEq

/-- Invitation event; state_key is the invited identity. -/
structure InviteMemberEvent where
  state_key : String
  deriving DecidableEq

/-- Outbound Matrix message payload built by send_message (line 113). -/
structure MessageContent where
  msgtype : String
  body : String
  formatted_body : String
  format : String
  deriving DecidableEq

/-- One AI generation request as assembled at src/main.py lines 88-95. -/
structure GenerateRequest where
  model : String
  contents : String
  system_instruction : String
  tools : List Tool
  deriving DecidableEq

/-- Outcome of the AI call: returned text, or a raised exception. -/
inductive AIResult where
  | ok (text : String)
  | err
  deriving DecidableEq

/-- Outcome of a Matrix room_send: acknowledged, or a raised exception. -/
inductive SendResult where
  | ok
  | err
  deriving DecidableEq

/-- Externally visible effects attempted by the handlers. -/
inductive Effect where
  | generate (req : GenerateRequest)
  | roomSend (room_id : String) (message_type : String) (content : MessageContent)
  | joinRoom (room_id : String)
  deriving DecidableEq

/-- Text of the system instruction before the interpolated knowledge
base (src/main.py lines 31-42, an f-string; the braces of the Python
interpolation sites split it into this head and the tail below). -/
def sysInstructionHead : String :=
  "You are an expert virtual assistant specializing in Fedora CoreOS (FCOS).\n\nYour primary task is to answer user questions accurately. Follow these steps:\n1.  First, consult the internal knowledge base provided below.\n2.  If the answer is not in the knowledge base, use the provided Fedora CoreOS documentation tool to find the answer.\n3.  If you still cannot find the answer, use the Google Search tool.\n4.  If the question is not related to FCOS or related IT topics, politely state that you can only answer questions on that subject.\n5.  Cite the source URL when you use the documentation or Google Search tools.\n6.  You can answer technical questions about Red Hat products.\n\nThe relevant URL for the Wiki is: " ++ FEDORA_COREOS_DOCS_URL ++ "\n--- INTERNAL KNOWLEDGE BASE ---\n"

/-- Text of the system instruction after the knowledge base (line 44). -/
def sysInstructionTail : String := "\n--- END OF KNOWLEDGE BASE ---\n"

/-- The f-string of src/main.py lines 31-45 as a function of the
interpolated faq_context. -/
def mk_system_instruction (faq_context : String) : String :=
  sysInstructionHead ++ faq_context ++ sysInstructionTail

/-- MatrixBot.load_context_from_file (src/main.py lines 49-61).  The
filesystem is an oracle from path to optional content; a missing file
(FileNotFoundError) yields the empty string after a logged warning. -/
def load_context_from_file (fs : String → Option String) (file_path : String) : String :=
  match fs file_path with
  | some context => context
  | none => ""

/-- The static tool list self.tools (src/main.py line 47). -/
def bot_tools : List Tool := [Tool.google_search, Tool.url_context]

/-- The bot state that the event handlers read: its Matrix identity, the
process-start timestamp, and the startup-built AI configuration. -/
structure BotState where
  user_id : String
  start_time_ms : Nat
  system_instruction : String
  tools : List Tool
  deriving DecidableEq

/-- MatrixBot.__init__ restricted to the fields the handlers read: the
system instruction is built once from the loaded knowledge base and the
tool list is fixed (src/main.py lines 19-47). -/
def mkBot (user_id : String) (start_time_ms : Nat) (fs : String → Option String) : BotState :=
  { user_id := user_id
  , start_time_ms := start_time_ms
  , system_instruction := mk_system_instruction (load_context_from_file fs "faq.adoc")
  , tools := bot_tools }

/-- Full record of what MatrixBot.__init__ produces (src/main.py lines
10-13 and 19-47): the four configuration values are read with
os.environ.get, which yields None when a variable is absent; no
validation is performed, so construction always succeeds. -/
structure BotInit where
  homeserver : Option String
  user_id : Option String
  password : Option String
  api_key : Option String
  start_time_ms : Nat
  system_instruction : String
  tools : List Tool
  deriving DecidableEq

/-- Startup: module-level configuration reads plus MatrixBot.__init__.
The environment is an oracle from variable name to optional value.
It is a total function: nothing in the source checks the configuration
values or aborts when one is absent. -/
def matrixBotInit (env : String → Option String) (fs : String → Option String)
    (now : Nat) : BotInit :=
  { homeserver := env "MATRIX_HOMESERVER"
  , user_id := env "MATRIX_USER_ID"
  , password := env "MATRIX_PASSWORD"
  , api_key := env "GEMINI_API_KEY"
  , start_time_ms := now
  , system_instruction := mk_system_instruction (load_context_from_file fs "faq.adoc")
  , tools := bot_tools }

/-- The apology text sent on a caught exception (src/main.py line 100). -/
def apology_text : String := "Sorry, an error occurred with the AI."

/-- The content dict built by MatrixBot.send_message (line 113): the
plain body and the formatted body are the same string. -/
def send_message_content (message : String) : MessageContent :=
  { msgtype := "m.text"
  , body := message
  , formatted_body := message
  , format := "org.matrix.custom.html" }

/-- MatrixBot.send_message (src/main.py lines 108-114) as the room_send
effect it performs. -/
def send_message (room_id : String) (message : String) : Effect :=
  Effect.roomSend room_id "m.room.message" (send_message_content message)

/-- The generate_content request assembled at src/main.py lines 88-95:
fixed model name, the user text as contents, and the bot's stored
system instruction and tools. -/
def mkGenerateRequest (bot : BotState) (user_text : String) : GenerateRequest :=
  { model := "gemini-2.5-flash"
  , contents := user_text
  , system_instruction := bot.system_instruction
  , tools := bot.tools }

/-- MatrixBot.message_callback (src/main.py lines 74-100).  Returns the
list of attempted effects and whether the handler returned normally.
The try block covers both the AI call and the send of its reply; a
failure of either is caught and answered with the apology send, whose
own failure is uncaught and escapes the handler. -/
def message_callback (bot : BotState) (ai : GenerateRequest → AIResult)
    (sendOutcome : String → String → SendResult)
    (room : MatrixRoom) (event : RoomMessageText) : List Effect × Bool :=
  if event.sender = bot.user_id then ([], true)
  else if event.server_timestamp < bot.start_time_ms then ([], true)
  else
    match ai (mkGenerateRequest bot event.body) with
    | AIResult.ok text =>
      match sendOutcome room.room_id text with
      | SendResult.ok =>
        ([Effect.generate (mkGenerateRequest bot event.body),
          send_message room.room_id text], true)
      | SendResult.err =>
        match sendOutcome room.room_id apology_text with
        | SendResult.ok =>
          ([Effect.generate (mkGenerateRequest bot event.body),
            send_message room.room_id text,
            send_message room.room_id apology_text], true)
        | SendResult.err =>
          ([Effect.generate (mkGenerateRequest bot event.body),
            send_message room.room_id text,
            send_message room.room_id apology_text], false)
    | AIResult.err =>
      match sendOutcome room.room_id apology_text with
      | SendResult.ok =>
        ([Effect.generate (mkGenerateRequest bot event.body),
          send_message room.room_id apology_text], true)
      | SendResult.err =>
        ([Effect.generate (mkGenerateRequest bot event.body),
          send_message room.room_id apology_text], false)

/-- MatrixBot.auto_join_invites (src/main.py lines 102-106). -/
def auto_join_invites (bot : BotState) (room : MatrixRoom)
    (event : InviteMemberEvent) : List Effect :=
  if event.state_key = bot.user_id then [Effect.joinRoom room.room_id] else []

/-- Number of AI-generation calls in a trace. -/
def countGenerate (trace : List Effect) : Nat :=
  (trace.filter fun e => match e with | Effect.generate _ => true | _ => false).length

/-- Number of apology sends to a given room in a trace. -/
def countApology (room_id : String) (trace : List Effect) : Nat :=
  (trace.filter fun e => decide (e = send_message room_id apology_text)).length

/-! ### Branch characterizations of message_callback -/

/-- Self-authored events are dropped before anything else runs. -/
theorem message_callback_self (bot : BotState) (ai : GenerateRequest → AIResult)
    (sendOutcome : String → String → SendResult) (room : MatrixRoom)
    (event : RoomMessageText) (h : event.sender = bot.user_id) :
    message_callback bot ai sendOutcome room event = ([], true) := by
  unfold message_callback
  rw [if_pos h]

/-- Backlog events (timestamp strictly before start) are dropped. -/
theorem message_callback_old (bot : BotState) (ai : GenerateRequest → AIResult)
    (sendOutcome : String → String → SendResult) (room : MatrixRoom)
    (event : RoomMessageText)
    (h : event.server_timestamp < bot.start_time_ms) :
    message_callback bot ai sendOutcome room event = ([], true) := by
  unfold message_callback
  by_cases hs : event.sender = bot.user_id
  · rw [if_pos hs]
  · rw [if_neg hs, if_pos h]

/-- Happy path: the AI call succeeds and the reply send succeeds. -/
theorem message_callback_ok_ok (bot : BotState) (ai : GenerateRequest → AIResult)
    (sendOutcome : String → String → SendResult) (room : MatrixRoom)
    (event : RoomMessageText) (text : String)
    (h1 : event.sender ≠ bot.user_id)
    (h2 : bot.start_time_ms ≤ event.server_timestamp)
    (hai : ai (mkGenerateRequest bot event.body) = AIResult.ok text)
    (hsend : sendOutcome room.room_id text = SendResult.ok) :
    message_callback bot ai sendOutcome room event =
      ([Effect.generate (mkGenerateRequest bot event.body),
        send_message room.room_id text], true) := by
  unfold message_callback
  rw [if_neg h1, if_neg (Nat.not_lt.mpr h2), hai]
  simp only [hsend]

/-- The AI call succeeds but the reply send raises: the handler falls
into the except branch and attempts the apology send. -/
theorem message_callback_ok_err (bot : BotState) (ai : GenerateRequest → AIResult)
    (sendOutcome : String → String → SendResult) (room : MatrixRoom)
    (event : RoomMessageText) (text : String)
    (h1 : event.sender ≠ bot.user_id)
    (h2 : bot.start_time_ms ≤ event.server_timestamp)
    (hai : ai (mkGenerateRequest bot event.body) = AIResult.ok text)
    (hsend : sendOutcome room.room_id text = SendResult.err) :
    (message_callback bot ai sendOutcome room event).1 =
      [Effect.generate (mkGenerateRequest bot event.body),
       send_message room.room_id text,
       send_message room.room_id apology_text] := by
  unfold message_callback
  rw [if_neg h1, if_neg (Nat.not_lt.mpr h2), hai]
  simp only [hsend]
  cases hap : sendOutcome room.room_id apology_text <;> simp [hap]

/-- The AI call raises: one apology send is attempted. -/
theorem message_callback_err (bot : BotState) (ai : GenerateRequest → AIResult)
    (sendOutcome : String → String → SendResult) (room : MatrixRoom)
    (event : RoomMessageText)
    (h1 : event.sender ≠ bot.user_id)
    (h2 : bot.start_time_ms ≤ event.server_timestamp)
    (hai : ai (mkGenerateRequest bot event.body) = AIResult.err) :
    (message_callback bot ai sendOutcome room event).1 =
      [Effect.generate (mkGenerateRequest bot event.body),
       send_message room.room_id apology_text] := by
  unfold message_callback
  rw [if_neg h1, if_neg (Nat.not_lt.mpr h2), hai]
  cases hap : sendOutcome room.room_id apology_text <;> simp [hap]

/-- The AI call raises and the apology send succeeds: the handler
returns normally with exactly the apology as user-visible output. -/
theorem message_callback_err_ok (bot : BotState) (ai : GenerateRequest → AIResult)
    (sendOutcome : String → String → SendResult) (room : MatrixRoom)
    (event : RoomMessageText)
    (h1 : event.sender ≠ bot.user_id)
    (h2 : bot.start_time_ms ≤ event.server_timestamp)
    (hai : ai (mkGenerateRequest bot event.body) = AIResult.err)
    (hsend : sendOutcome room.room_id apology_text = SendResult.ok) :
    message_callback bot ai sendOutcome room event =
      ([Effect.generate (mkGenerateRequest bot event.body),
        send_message room.room_id apology_text], true) := by
  unfold message_callback
  rw [if_neg h1, if_neg (Nat.not_lt.mpr h2), hai]
  simp only [hsend]

/-- Every AI request in any trace of message_callback is the one built
from the bot's stored configuration and the event's body. -/
theorem generate_mem_message_callback (bot : BotState)
    (ai : GenerateRequest → AIResult)
    (sendOutcome : String → String → SendResult) (room : MatrixRoom)
    (event : RoomMessageText) (req : GenerateRequest)
    (h : Effect.generate req ∈ (message_callback bot ai sendOutcome room event).1) :
    req = mkGenerateRequest bot event.body := by
  unfold message_callback at h
  by_cases hs : event.sender = bot.user_id
  · rw [if_pos hs] at h
    simp at h
  · rw [if_neg hs] at h
    by_cases ht : event.server_timestamp < bot.start_time_ms
    · rw [if_pos ht] at h
      simp at h
    · rw [if_neg ht] at h
      cases hai : ai (mkGenerateRequest bot event.body) with
      | ok text =>
        rw [hai] at h
        cases hso : sendOutcome room.room_id text with
        | ok =>
          simp only [hso] at h
          simp [send_message] at h
          exact h
        | err =>
          simp only [hso] at h
          cases hap : sendOutcome room.room_id apology_text <;>
            · simp only [hap] at h
              simp [send_message] at h
              exact h
      | err =>
        rw [hai] at h
        cases hap : sendOutcome room.room_id apology_text <;>
          · simp only [hap] at h
            simp [send_message] at h
            exact h

/-- Whenever both gates pass, exactly one AI-generation call appears in
the trace, whatever the AI and send outcomes are. -/
theorem countGenerate_pass (bot : BotState) (ai : GenerateRequest → AIResult)
    (sendOutcome : String → String → SendResult) (room : MatrixRoom)
    (event : RoomMessageText)
    (h1 : event.sender ≠ bot.user_id)
    (h2 : bot.start_time_ms ≤ event.server_timestamp) :
    countGenerate (message_callback bot ai sendOutcome room event).1 = 1 := by
  cases hai : ai (mkGenerateRequest bot event.body) with
  | ok text =>
    cases hso : sendOutcome room.room_id text with
    | ok =>
      rw [message_callback_ok_ok bot ai sendOutcome room event text h1 h2 hai hso]
      rfl
    | err =>
      rw [message_callback_ok_err bot ai sendOutcome room event text h1 h2 hai hso]
      rfl
  | err =>
    rw [message_callback_err bot ai sendOutcome room event h1 h2 hai]
    rfl

/-! ### Concrete fixtures used by the witnesses -/

/-- A concrete bot state for witnesses. -/
def botFix : BotState :=
  { user_id := "@fcos-bot:example.org"
  , start_time_ms := 5
  , system_instruction := mk_system_instruction ""
  , tools := bot_tools }

/-- A concrete room for witnesses. -/
def roomFix : MatrixRoom := { room_id := "!room:example.org", display_name := "FCOS" }

/-- An AI oracle that always answers with the text pong. -/
def aiOkFix : GenerateRequest → AIResult := fun _ => AIResult.ok "pong"

/-- An AI oracle that always raises. -/
def aiErrFix : GenerateRequest → AIResult := fun _ => AIResult.err

/-- A send oracle that always succeeds. -/
def sendOkFix : String → String → SendResult := fun _ _ => SendResult.ok

/-- A send oracle that always raises. -/
def sendErrFix : String → String → SendResult := fun _ _ => SendResult.err

/-- A concrete non-self message event after the start time. -/
def eventFix : RoomMessageText :=
  { sender := "@alice:example.org", body := "ping", server_timestamp := 7 }

/-- A concrete message event older than the start time. -/
def eventOldFix : RoomMessageText :=
  { sender := "@alice:example.org", body := "old", server_timestamp := 3 }

/-- A concrete message event whose timestamp equals the start time. -/
def eventEdgeFix : RoomMessageText :=
  { sender := "@alice:example.org", body := "edge", server_timestamp := 5 }

/-- A concrete message event authored by the bot itself. -/
def eventSelfFix : RoomMessageText :=
  { sender := "@fcos-bot:example.org", body := "self", server_timestamp := 9 }

/-- An invitation whose target is the bot. -/
def inviteSelfFix : InviteMemberEvent := { state_key := "@fcos-bot:example.org" }

/-- An invitation whose target is someone else. -/
def inviteOtherFix : InviteMemberEvent := { state_key := "@bob:example.org" }

/-! ### Claims -/

/-- C1: for every incoming text message that is not self-authored and
whose server timestamp is at least the process start time, exactly one
AI-service call is made, its input is the message body, and on AI
success the reply sent to the originating room is exactly the text the
service returned. -/
theorem c1_single_ai_call_and_reply (bot : BotState)
    (ai : GenerateRequest → AIResult)
    (sendOutcome : String → String → SendResult)
    (room : MatrixRoom) (event : RoomMessageText)
    (h1 : event.sender ≠ bot.user_id)
    (h2 : bot.start_time_ms ≤ event.server_timestamp) :
    countGenerate (message_callback bot ai sendOutcome room event).1 = 1 ∧
    (∀ req, Effect.generate req ∈ (message_callback bot ai sendOutcome room event).1 →
      req.contents = event.body) ∧
    (∀ text, ai (mkGenerateRequest bot event.body) = AIResult.ok text →
      send_message room.room_id text ∈ (message_callback bot ai sendOutcome room event).1) := by
  refine ⟨countGenerate_pass bot ai sendOutcome room event h1 h2, ?_, ?_⟩
  · intro req hreq
    rw [generate_mem_message_callback bot ai sendOutcome room event req hreq]
    rfl
  · intro text hai
    cases hso : sendOutcome room.room_id text with
    | ok =>
      rw [message_callback_ok_ok bot ai sendOutcome room event text h1 h2 hai hso]
      simp
    | err =>
      rw [message_callback_ok_err bot ai sendOutcome room event text h1 h2 hai hso]
      simp

/-- Closed instance of c1_single_ai_call_and_reply. -/
theorem c1_single_ai_call_and_reply_witness :
    countGenerate (message_callback botFix aiOkFix sendOkFix roomFix eventFix).1 = 1 :=
  (c1_single_ai_call_and_reply botFix aiOkFix sendOkFix roomFix eventFix
    (by decide) (by decide)).1

/-- C2: an event with server timestamp strictly before the process
start time produces no effect at all, regardless of sender and content,
while an event with timestamp equal to the start time proceeds to the
AI call. -/
theorem c2_timestamp_gate (bot : BotState) (ai : GenerateRequest → AIResult)
    (sendOutcome : String → String → SendResult)
    (room : MatrixRoom) (event : RoomMessageText) :
    (event.server_timestamp < bot.start_time_ms →
      message_callback bot ai sendOutcome room event = ([], true)) ∧
    (event.sender ≠ bot.user_id → event.server_timestamp = bot.start_time_ms →
      countGenerate (message_callback bot ai sendOutcome room event).1 = 1) := by
  constructor
  · intro h
    exact message_callback_old bot ai sendOutcome room event h
  · intro h1 heq
    exact countGenerate_pass bot ai sendOutcome room event h1 (Nat.le_of_eq heq.symm)

/-- Closed instance of c2_timestamp_gate at a backlog event and at an
event whose timestamp equals the start time. -/
theorem c2_timestamp_gate_witness :
    message_callback botFix aiOkFix sendOkFix roomFix eventOldFix = ([], true) ∧
    countGenerate (message_callback botFix aiOkFix sendOkFix roomFix eventEdgeFix).1 = 1 :=
  ⟨(c2_timestamp_gate botFix aiOkFix sendOkFix roomFix eventOldFix).1 (by decide),
   (c2_timestamp_gate botFix aiOkFix sendOkFix roomFix eventEdgeFix).2 (by decide) (by decide)⟩

/-- C3: an event authored by the bot itself produces no effect at all,
regardless of content and timestamp. -/
theorem c3_self_silence (bot : BotState) (ai : GenerateRequest → AIResult)
    (sendOutcome : String → String → SendResult)
    (room : MatrixRoom) (event : RoomMessageText)
    (h : event.sender = bot.user_id) :
    message_callback bot ai sendOutcome room event = ([], true) :=
  message_callback_self bot ai sendOutcome room event h

/-- Closed instance of c3_self_silence. -/
theorem c3_self_silence_witness :
    message_callback botFix aiOkFix sendOkFix roomFix eventSelfFix = ([], true) :=
  c3_self_silence botFix aiOkFix sendOkFix roomFix eventSelfFix (by decide)

/-- C4: when both gates pass, the AI call raises, and the apology send
is deliverable, the handler performs exactly the failed AI call plus a
single generic apology send to the originating room and returns
normally, so the event loop continues. -/
theorem c4_ai_failure_apology (bot : BotState) (ai : GenerateRequest → AIResult)
    (sendOutcome : String → String → SendResult)
    (room : MatrixRoom) (event : RoomMessageText)
    (h1 : event.sender ≠ bot.user_id)
    (h2 : bot.start_time_ms ≤ event.server_timestamp)
    (hai : ai (mkGenerateRequest bot event.body) = AIResult.err)
    (hsend : sendOutcome room.room_id apology_text = SendResult.ok) :
    message_callback bot ai sendOutcome room event =
      ([Effect.generate (mkGenerateRequest bot event.body),
        send_message room.room_id apology_text], true) ∧
    countApology room.room_id (message_callback bot ai sendOutcome room event).1 = 1 := by
  have h := message_callback_err_ok bot ai sendOutcome room event h1 h2 hai hsend
  refine ⟨h, ?_⟩
  rw [h]
  simp [countApology, send_message]

/-- Closed instance of c4_ai_failure_apology. -/
theorem c4_ai_failure_apology_witness :
    message_callback botFix aiErrFix sendOkFix roomFix eventFix =
      ([Effect.generate (mkGenerateRequest botFix eventFix.body),
        send_message roomFix.room_id apology_text], true) :=
  (c4_ai_failure_apology botFix aiErrFix sendOkFix roomFix eventFix
    (by decide) (by decide) rfl rfl).1

/-- C5: every outbound message payload carries a plain body and a
formatted body, the formatted body is a verbatim copy of the plain body
(no escaping or conversion), and the payload is tagged as HTML. -/
theorem c5_formatted_body_verbatim (room_id message : String) :
    send_message room_id message =
      Effect.roomSend room_id "m.room.message" (send_message_content message) ∧
    (send_message_content message).body = message ∧
    (send_message_content message).formatted_body = (send_message_content message).body ∧
    (send_message_content message).msgtype = "m.text" ∧
    (send_message_content message).format = "org.matrix.custom.html" :=
  ⟨rfl, rfl, rfl, rfl, rfl⟩

/-- C6: the system instruction built at startup embeds the loaded
knowledge base verbatim as a substring, and every AI request carries
exactly that stored instruction, the static tool list, and the fixed
model name, with only the user text varying. -/
theorem c6_static_system_instruction (user_id : String) (start_time_ms : Nat)
    (fs : String → Option String) (ai : GenerateRequest → AIResult)
    (sendOutcome : String → String → SendResult)
    (room : MatrixRoom) (event : RoomMessageText) :
    (∃ pre post, (mkBot user_id start_time_ms fs).system_instruction =
      pre ++ load_context_from_file fs "faq.adoc" ++ post) ∧
    (∀ req, Effect.generate req ∈
        (message_callback (mkBot user_id start_time_ms fs) ai sendOutcome room event).1 →
      req.system_instruction = (mkBot user_id start_time_ms fs).system_instruction ∧
      req.tools = bot_tools ∧
      req.model = "gemini-2.5-flash" ∧
      req.contents = event.body) := by
  constructor
  · exact ⟨sysInstructionHead, sysInstructionTail, rfl⟩
  · intro req hreq
    rw [generate_mem_message_callback _ ai sendOutcome room event req hreq]
    exact ⟨rfl, rfl, rfl, rfl⟩

/-- C7: an invitation targeting the bot yields exactly one join of the
inviting room; an invitation targeting anyone else yields nothing. -/
theorem c7_auto_join (bot : BotState) (room : MatrixRoom)
    (event : InviteMemberEvent) :
    (event.state_key = bot.user_id →
      auto_join_invites bot room event = [Effect.joinRoom room.room_id]) ∧
    (event.state_key ≠ bot.user_id → auto_join_invites bot room event = []) := by
  constructor
  · intro h
    unfold auto_join_invites
    rw [if_pos h]
  · intro h
    unfold auto_join_invites
    rw [if_neg h]

/-- Closed instance of c7_auto_join for both kinds of invitation. -/
theorem c7_auto_join_witness :
    auto_join_invites botFix roomFix inviteSelfFix = [Effect.joinRoom roomFix.room_id] ∧
    auto_join_invites botFix roomFix inviteOtherFix = [] :=
  ⟨(c7_auto_join botFix roomFix inviteSelfFix).1 (by decide),
   (c7_auto_join botFix roomFix inviteOtherFix).2 (by decide)⟩

/-- C8: the claim asks for fail-fast startup on a missing required
environment variable, but startup is a total function: with every
variable absent, each configuration value is none (no default is
substituted) and construction still succeeds, so the failure can only
surface later at login or at the first AI call. -/
theorem c8_startup_does_not_fail_fast :
    matrixBotInit (fun _ => none) (fun _ => none) 0 =
      { homeserver := none, user_id := none, password := none, api_key := none
      , start_time_ms := 0, system_instruction := mk_system_instruction ""
      , tools := bot_tools } :=
  rfl

/-- C9: a missing faq.adoc is non-fatal: the loader substitutes the
empty string and startup completes with the system instruction built
from an empty knowledge base. -/
theorem c9_missing_faq_nonfatal (env fs : String → Option String) (now : Nat)
    (h : fs "faq.adoc" = none) :
    load_context_from_file fs "faq.adoc" = "" ∧
    (matrixBotInit env fs now).system_instruction = mk_system_instruction "" := by
  have hl : load_context_from_file fs "faq.adoc" = "" := by
    unfold load_context_from_file
    rw [h]
  exact ⟨hl, by simp [matrixBotInit, hl]⟩

/-- Closed instance of c9_missing_faq_nonfatal. -/
theorem c9_missing_faq_nonfatal_witness :
    load_context_from_file (fun _ => none) "faq.adoc" = "" ∧
    (matrixBotInit (fun _ => none) (fun _ => none) 0).system_instruction =
      mk_system_instruction "" :=
  c9_missing_faq_nonfatal (fun _ => none) (fun _ => none) 0 rfl

/-- C10: when the AI call succeeds but sending the reply raises, the
handler falls into the same except branch as an AI failure and attempts
the generic apology send to the room, after the failed reply send. -/
theorem c10_reply_send_failure_apology (bot : BotState)
    (ai : GenerateRequest → AIResult)
    (sendOutcome : String → String → SendResult)
    (room : MatrixRoom) (event : RoomMessageText) (text : String)
    (h1 : event.sender ≠ bot.user_id)
    (h2 : bot.start_time_ms ≤ event.server_timestamp)
    (hai : ai (mkGenerateRequest bot event.body) = AIResult.ok text)
    (hsend : sendOutcome room.room_id text = SendResult.err) :
    (message_callback bot ai sendOutcome room event).1 =
      [Effect.generate (mkGenerateRequest bot event.body),
       send_message room.room_id text,
       send_message room.room_id apology_text] ∧
    send_message room.room_id apology_text ∈
      (message_callback bot ai sendOutcome room event).1 := by
  have h := message_callback_ok_err bot ai sendOutcome room event text h1 h2 hai hsend
  refine ⟨h, ?_⟩
  rw [h]
  simp

/-- Closed instance of c10_reply_send_failure_apology. -/
theorem c10_reply_send_failure_apology_witness :
    (message_callback botFix aiOkFix sendErrFix roomFix eventFix).1 =
      [Effect.generate (mkGenerateRequest botFix eventFix.body),
       send_message roomFix.room_id "pong",
       send_message roomFix.room_id apology_text] :=
  (c10_reply_send_failure_apology botFix aiOkFix sendErrFix roomFix eventFix "pong"
    (by decide) (by decide) rfl rfl).1
